import Mathlib

/-!
Verification of the SMS mock server's Outcome Simulation & Webhook Delivery
Engine (src/app/callbacks.py, src/app/providers/twilio.py, src/app/main.py,
src/app/config.py), as a shallow embedding.

Conventions of the embedding:
* Python `int` is `Int`; list membership `x in xs` is `x ∈ xs` on `List String`.
* The HTTP world is an environment: each call of `send_callback` consumes one
  `HttpOutcome`, which is either a response (status code and body text) or a
  raised exception carrying a message.  `send_callback_with_retry` draws its
  outcomes from a function `Nat → HttpOutcome` indexed by attempt number, and a
  progression run draws from `Env := Nat → Nat → HttpOutcome` indexed by the
  position of the status transition and by attempt number.
* All repository writes, HTTP attempts, and sleeps are collected in order into
  a `List Event` trace; `json.dumps` of the form payload is kept structured as
  the association list of its fields.
-/

namespace SmsMock


/-- Python: `app/config.py`, class `CallbackConfig` (fields with their
defaults: enabled=True, delay_seconds=2, retry_attempts=3,
retry_delay_seconds=5). -/
structure CallbackConfig where
  enabled : Bool := true
  delay_seconds : Int := 2
  retry_attempts : Int := 3
  retry_delay_seconds : Int := 5
deriving DecidableEq, Repr

/-- Python: `app/config.py`, class `TwilioConfig` (the fields the engine
reads). -/
structure TwilioConfig where
  account_sid : String := ""
  default_behavior : String := "success"
  registered_numbers : List String := []
  failure_numbers : List String := []
  callbacks : CallbackConfig := {}
deriving DecidableEq, Repr

/-- Python: `app/providers/twilio.py`, `TwilioProvider.should_succeed`:
failure list first, then registered list, otherwise
`default_behavior == "success"`. -/
def should_succeed (cfg : TwilioConfig) (to_number : String) : Bool :=
  if to_number ∈ cfg.failure_numbers then false
  else if to_number ∈ cfg.registered_numbers then true
  else cfg.default_behavior == "success"

/-- The three-valued outcome of the spec's Outcome Classifier. -/
inductive Outcome where
  | Succeed
  | Fail
  | Unknown
deriving DecidableEq, Repr

/-- The composite classification the code actually implements: the membership
gate at the top of `CallbackHandler.process_message_callbacks` /
`process_call_callbacks` (src/app/callbacks.py: when the destination is in
neither configured list the run returns immediately, i.e. the resource is
Unknown), combined with `TwilioProvider.should_succeed`, which `main.py`
evaluates as `will_succeed` and hands to the progression run. -/
def classify (cfg : TwilioConfig) (to_number : String) : Outcome :=
  if to_number ∉ cfg.registered_numbers ∧ to_number ∉ cfg.failure_numbers then
    Outcome.Unknown
  else if should_succeed cfg to_number then Outcome.Succeed
  else Outcome.Fail

/-- The concrete configuration of the spec's §8 scenario:
registered_numbers=["+15551234567"], failure_numbers=["+15559999999"],
default_behavior="success". -/
def scenarioCfg : TwilioConfig :=
  { account_sid := "ACtest"
    default_behavior := "success"
    registered_numbers := ["+15551234567"]
    failure_numbers := ["+15559999999"] }

/-- The outcome of one `httpx` POST inside `send_callback`: either a response
arrived (with its status code and body text), or the attempt raised an
exception whose string form is `msg`. -/
inductive HttpOutcome where
  | response (status_code : Int) (text : String)
  | error (msg : String)
deriving DecidableEq, Repr

/-- The form payload, kept structured: the association list of the fields that
`send_callback` serialises with `json.dumps`. -/
def Payload : Type := List (String × String)

instance : DecidableEq Payload := inferInstanceAs (DecidableEq (List (String × String)))

/-- One row of `callback_logs` as written by `Storage.create_callback_log`
(src/app/storage.py): target URL, serialised payload, nullable status code,
response body, attempt number. -/
structure CallbackLogEntry where
  target_url : String
  payload : Payload
  status_code : Option Int
  response_body : String
  attempt_number : Nat
deriving DecidableEq

/-- Python character slicing `s[:500]`, used as `response.text[:500]` in
`send_callback`. -/
def pySlice500 (s : String) : String := String.mk (s.data.take 500)

/-- Python: `CallbackHandler.send_callback` (src/app/callbacks.py).  Given the
outcome of the HTTP attempt it returns the `(success, status_code,
response_body)` tuple the Python function returns, together with the one
callback-log row it creates.  On a response, success is
`200 <= status_code < 300`, the tuple carries the real code and the untruncated
text, and the log row stores `text[:500]`.  On an exception the tuple is
`(False, 0, str(e))` and the log row stores status code NULL and body
`"Error: " + str(e)`; the exception never propagates. -/
def send_callback (out : HttpOutcome) (url : String) (payload : Payload)
    (attempt : Nat) : (Bool × Int × String) × CallbackLogEntry :=
  match out with
  | HttpOutcome.response code text =>
      ((decide (200 ≤ code ∧ code < 300), code, text),
       { target_url := url
         payload := payload
         status_code := some code
         response_body := pySlice500 text
         attempt_number := attempt })
  | HttpOutcome.error msg =>
      ((false, 0, msg),
       { target_url := url
         payload := payload
         status_code := none
         response_body := "Error: " ++ msg
         attempt_number := attempt })

/-- One element of the observable trace of a progression run: a repository
write, an HTTP attempt, or a sleep. -/
inductive Event where
  | updateMessage (sid status : String)
  | updateCall (sid status : String)
  | httpAttempt (url : String) (attempt : Nat)
  | log (entry : CallbackLogEntry)
  | deliveryEvent (message_sid call_sid : Option String)
      (event_type status : String)
  | sleep (seconds : Int)
deriving DecidableEq

/-- `send_callback` as a trace fragment: the HTTP attempt followed by the log
row it appends, paired with its success flag. -/
def sendCallbackEvents (out : HttpOutcome) (url : String) (payload : Payload)
    (attempt : Nat) : Bool × List Event :=
  let r := send_callback out url payload attempt
  (r.1.1, [Event.httpAttempt url attempt, Event.log r.2])

/-- The callback-log rows appearing in a trace, in order. -/
def logsOf (evts : List Event) : List CallbackLogEntry :=
  evts.filterMap fun e =>
    match e with
    | Event.log entry => some entry
    | _ => none

/-- The attempt numbers of the callback-log rows of a trace, in order. -/
def loggedAttempts (evts : List Event) : List Nat :=
  (logsOf evts).map CallbackLogEntry.attempt_number

/-- The HTTP attempts of a trace, in order. -/
def httpAttemptsOf (evts : List Event) : List (String × Nat) :=
  evts.filterMap fun e =>
    match e with
    | Event.httpAttempt url attempt => some (url, attempt)
    | _ => none

/-- The message-status updates of a trace, in order. -/
def messageUpdates (evts : List Event) : List (String × String) :=
  evts.filterMap fun e =>
    match e with
    | Event.updateMessage sid status => some (sid, status)
    | _ => none

/-- The call-status updates of a trace, in order. -/
def callUpdates (evts : List Event) : List (String × String) :=
  evts.filterMap fun e =>
    match e with
    | Event.updateCall sid status => some (sid, status)
    | _ => none

/-- The delivery events of a trace, in order. -/
def deliveryEventsOf (evts : List Event) :
    List (Option String × Option String × String × String) :=
  evts.filterMap fun e =>
    match e with
    | Event.deliveryEvent msid csid kind status => some (msid, csid, kind, status)
    | _ => none

/-- The sleeps of a trace, in order. -/
def sleepsOf (evts : List Event) : List Int :=
  evts.filterMap fun e =>
    match e with
    | Event.sleep s => some s
    | _ => none

/-- A 501-character exception message. -/
def longErrorMsg : String := String.mk (List.replicate 501 'e')

/-- Whether one HTTP outcome counts as success in `send_callback`
(`200 <= response.status_code < 300`; an exception never succeeds). -/
def callbackSucceeded : HttpOutcome → Bool
  | HttpOutcome.response code _ => decide (200 ≤ code ∧ code < 300)
  | HttpOutcome.error _ => false

/-- The body of the `for attempt in range(1, max_attempts + 1)` loop of
`CallbackHandler.send_callback_with_retry`, over an explicit list of attempt
numbers: each attempt runs `send_callback` (whose HTTP attempt and log row
enter the trace), a success returns `True` at once, and a failed attempt with
`attempt < max_attempts` sleeps `retry_delay_seconds` before the next one. -/
def retryGo (cfg : CallbackConfig) (outcomes : Nat → HttpOutcome) (url : String)
    (payload : Payload) : List Nat → Bool × List Event
  | [] => (false, [])
  | a :: rest =>
    if (send_callback (outcomes a) url payload a).1.1 then
      (true, (sendCallbackEvents (outcomes a) url payload a).2)
    else
      ((retryGo cfg outcomes url payload rest).1,
       (sendCallbackEvents (outcomes a) url payload a).2
         ++ (if (a : Int) < cfg.retry_attempts then
              [Event.sleep cfg.retry_delay_seconds] else [])
         ++ (retryGo cfg outcomes url payload rest).2)

/-- Python: `CallbackHandler.send_callback_with_retry` (src/app/callbacks.py).
`range(1, max_attempts + 1)` is the attempt-number list
`List.range' 1 max_attempts.toNat` (empty when `retry_attempts ≤ 0`, exactly
as the Python range is). -/
def send_callback_with_retry (cfg : CallbackConfig)
    (outcomes : Nat → HttpOutcome) (url : String) (payload : Payload) :
    Bool × List Event :=
  retryGo cfg outcomes url payload (List.range' 1 cfg.retry_attempts.toNat)

/-- Outcomes for the C2 witness: attempts 1 and 2 get a 500 response, attempt 3
a 200 response. -/
def witnessOutcomes : Nat → HttpOutcome := fun i =>
  if i = 3 then HttpOutcome.response 200 "ok" else HttpOutcome.response 500 "err"

/-- The HTTP environment of one progression run: the outcome of attempt `a` of
the callback delivery for the run's `i`-th status transition is `env i a`. -/
def Env : Type := Nat → Nat → HttpOutcome

/-- All deliveries succeed: every attempt gets a 200 response. -/
def envAllOk : Env := fun _ _ => HttpOutcome.response 200 "OK"

/-- The form payload `process_message_callbacks` builds for one message status
callback. -/
def messagePayload (cfg : TwilioConfig) (message_sid from_number to_number
    status : String) : Payload :=
  [("MessageSid", message_sid),
   ("AccountSid", cfg.account_sid),
   ("From", from_number),
   ("To", to_number),
   ("MessageStatus", status),
   ("ApiVersion", "2010-04-01")]

/-- The form payload `process_call_callbacks` builds for one call status
callback. -/
def callPayload (cfg : TwilioConfig) (call_sid from_number to_number
    status : String) : Payload :=
  [("CallSid", call_sid),
   ("AccountSid", cfg.account_sid),
   ("From", from_number),
   ("To", to_number),
   ("CallStatus", status),
   ("ApiVersion", "2010-04-01"),
   ("Direction", "outbound-api")]

/-- The `statuses` list `process_message_callbacks` walks:
`["sent", "delivered"]` when the message will succeed, else `["failed"]`. -/
def messageStatuses (will_succeed : Bool) : List String :=
  if will_succeed then ["sent", "delivered"] else ["failed"]

/-- The `statuses` list `process_call_callbacks` walks:
`["ringing", "in-progress", "completed"]` when the call will succeed, else
`["failed"]`. -/
def callStatuses (will_succeed : Bool) : List String :=
  if will_succeed then ["ringing", "in-progress", "completed"] else ["failed"]

/-- The `if callback_url:` guard of the progression loops: the retry delivery
runs only when a URL was supplied and (Python truthiness) is non-empty. -/
def callbackEventsFor (cfg : TwilioConfig) (outcomes : Nat → HttpOutcome)
    (callback_url : Option String) (payload : Payload) : List Event :=
  match callback_url with
  | some u =>
      if u ≠ "" then (send_callback_with_retry cfg.callbacks outcomes u payload).2
      else []
  | none => []

/-- The `for status in statuses` loop of `process_message_callbacks`: update
the message status, deliver the callback when a URL is present, record the
delivery event, and sleep `delay_seconds` unless `status == statuses[-1]`
(`lastStatus`).  `i` indexes the transition for the HTTP environment. -/
def messageStatusLoop (cfg : TwilioConfig) (env : Env)
    (message_sid from_number to_number : String) (callback_url : Option String)
    (lastStatus : String) : Nat → List String → List Event
  | _, [] => []
  | i, status :: rest =>
    Event.updateMessage message_sid status ::
      (callbackEventsFor cfg (env i) callback_url
          (messagePayload cfg message_sid from_number to_number status) ++
        [Event.deliveryEvent (some message_sid) none "status_update" status] ++
        (if status ≠ lastStatus then [Event.sleep cfg.callbacks.delay_seconds]
         else []) ++
        messageStatusLoop cfg env message_sid from_number to_number callback_url
          lastStatus (i + 1) rest)

/-- The `for status in statuses` loop of `process_call_callbacks`. -/
def callStatusLoop (cfg : TwilioConfig) (env : Env)
    (call_sid from_number to_number : String) (callback_url : Option String)
    (lastStatus : String) : Nat → List String → List Event
  | _, [] => []
  | i, status :: rest =>
    Event.updateCall call_sid status ::
      (callbackEventsFor cfg (env i) callback_url
          (callPayload cfg call_sid from_number to_number status) ++
        [Event.deliveryEvent none (some call_sid) "status_update" status] ++
        (if status ≠ lastStatus then [Event.sleep cfg.callbacks.delay_seconds]
         else []) ++
        callStatusLoop cfg env call_sid from_number to_number callback_url
          lastStatus (i + 1) rest)

/-- Python: `CallbackHandler.process_message_callbacks` (src/app/callbacks.py).
When the destination is in neither configured list the run returns at once
with an empty trace; otherwise it sleeps `delay_seconds` and walks the status
loop over `messageStatuses will_succeed`. -/
def process_message_callbacks (cfg : TwilioConfig) (env : Env)
    (message_sid from_number to_number : String) (callback_url : Option String)
    (will_succeed : Bool) : List Event :=
  if to_number ∉ cfg.registered_numbers ∧ to_number ∉ cfg.failure_numbers then []
  else
    Event.sleep cfg.callbacks.delay_seconds ::
      messageStatusLoop cfg env message_sid from_number to_number callback_url
        ((messageStatuses will_succeed).getLastD "") 0
        (messageStatuses will_succeed)

/-- Python: `CallbackHandler.process_call_callbacks` (src/app/callbacks.py). -/
def process_call_callbacks (cfg : TwilioConfig) (env : Env)
    (call_sid from_number to_number : String) (callback_url : Option String)
    (will_succeed : Bool) : List Event :=
  if to_number ∉ cfg.registered_numbers ∧ to_number ∉ cfg.failure_numbers then []
  else
    Event.sleep cfg.callbacks.delay_seconds ::
      callStatusLoop cfg env call_sid from_number to_number callback_url
        ((callStatuses will_succeed).getLastD "") 0 (callStatuses will_succeed)

/-- The callback-URL argument `main.py` hands to the background task:
`callback_url if (callback_url and config.twilio.callbacks.enabled) else None`
(an absent or empty URL, or a disabled callback subsystem, becomes `None`). -/
def scheduledCallbackUrl (cfg : TwilioConfig) (callback_url : Option String) :
    Option String :=
  match callback_url with
  | some u => if u ≠ "" ∧ cfg.callbacks.enabled then some u else none
  | none => none

/-- The background progression task `main.py`'s `send_message` schedules:
`process_message_callbacks` with the gated callback URL and
`will_succeed = provider.should_succeed(To)`. -/
def sendMessageTask (cfg : TwilioConfig) (env : Env)
    (message_sid from_number to_number : String)
    (callback_url : Option String) : List Event :=
  process_message_callbacks cfg env message_sid from_number to_number
    (scheduledCallbackUrl cfg callback_url) (should_succeed cfg to_number)

/-- The background progression task `main.py`'s `make_call` schedules. -/
def sendCallTask (cfg : TwilioConfig) (env : Env)
    (call_sid from_number to_number : String)
    (callback_url : Option String) : List Event :=
  process_call_callbacks cfg env call_sid from_number to_number
    (scheduledCallbackUrl cfg callback_url) (should_succeed cfg to_number)

/-- C1: a destination in neither `failure_numbers` nor `registered_numbers`
classifies as Unknown for every configuration, in particular for every
`default_behavior`; and in the spec's concrete scenario
classify("+19998887777") = Unknown (there, default_behavior = "success"). -/
theorem classify_unlisted_unknown (cfg : TwilioConfig) (to_number : String)
    (hf : to_number ∉ cfg.failure_numbers)
    (hr : to_number ∉ cfg.registered_numbers) :
    classify cfg to_number = Outcome.Unknown ∧
      classify scenarioCfg "+19998887777" = Outcome.Unknown := by
  refine ⟨?_, by decide⟩
  simp [classify, hf, hr]

/-- Witness for C1 at a concrete unlisted destination. -/
theorem classify_unlisted_unknown_witness :
    classify scenarioCfg "+19998887777" = Outcome.Unknown ∧
      classify { scenarioCfg with default_behavior := "failure" } "+19998887777"
        = Outcome.Unknown := by
  refine ⟨(classify_unlisted_unknown scenarioCfg "+19998887777"
      (by decide) (by decide)).1,
    (classify_unlisted_unknown
      { scenarioCfg with default_behavior := "failure" } "+19998887777"
      (by decide) (by decide)).1⟩

/-- C6: with a response, the returned success flag is true iff the status code
is in [200, 300); with a transport failure, the returned tuple has
success=false and carries the stringified error, the logged attempt records an
absent status code (the tuple's integer slot holds the sentinel 0), and — the
function being total — no exception reaches the caller. -/
theorem send_callback_result_spec (url : String) (payload : Payload)
    (attempt : Nat) :
    (∀ code text,
      ((send_callback (HttpOutcome.response code text) url payload attempt).1.1
          = true ↔ 200 ≤ code ∧ code < 300) ∧
      (send_callback (HttpOutcome.response code text) url payload
          attempt).2.status_code = some code) ∧
    (∀ msg,
      (send_callback (HttpOutcome.error msg) url payload attempt).1.1 = false ∧
      (send_callback (HttpOutcome.error msg) url payload
          attempt).2.status_code = none ∧
      (send_callback (HttpOutcome.error msg) url payload attempt).1.2.2 = msg) := by
  refine ⟨fun code text => ⟨?_, rfl⟩, fun msg => ⟨rfl, rfl, rfl⟩⟩
  simp [send_callback]

/-- C7 counterexample: on the transport-failure path the logged response body
is `"Error: " ++ str(e)` with no truncation, so a 501-character error message
yields a 508-character logged body, exceeding the claimed 500-character cap. -/
theorem send_callback_log_not_truncated :
    500 < ((send_callback (HttpOutcome.error longErrorMsg) "http://cb.example"
      [] 1).2).response_body.length := by
  have h : ((send_callback (HttpOutcome.error longErrorMsg) "http://cb.example"
      [] 1).2).response_body.length
      = ("Error: ".data ++ List.replicate 501 'e').length := rfl
  rw [h, List.length_append, List.length_replicate]
  have h7 : "Error: ".data.length = 7 := rfl
  omega

/-- C7 amended: every `send_callback` call, on both paths, appends exactly one
callback-log row whose attempt number is the caller-supplied one; on the
response path the logged body is the response text truncated to at most 500
characters; on the transport-failure path the logged body is `"Error: "`
followed by the untruncated error description. -/
theorem send_callback_always_logs (out : HttpOutcome) (url : String)
    (payload : Payload) (attempt : Nat) :
    logsOf (sendCallbackEvents out url payload attempt).2
        = [(send_callback out url payload attempt).2] ∧
    (send_callback out url payload attempt).2.attempt_number = attempt ∧
    (∀ code text, out = HttpOutcome.response code text →
      (send_callback out url payload attempt).2.response_body = pySlice500 text ∧
      (send_callback out url payload attempt).2.response_body.length ≤ 500) ∧
    (∀ msg, out = HttpOutcome.error msg →
      (send_callback out url payload attempt).2.response_body
        = "Error: " ++ msg) := by
  refine ⟨?_, ?_, fun code text h => ?_, fun msg h => ?_⟩
  · cases out <;> rfl
  · cases out <;> rfl
  · subst h
    refine ⟨rfl, ?_⟩
    show (pySlice500 text).length ≤ 500
    have hl : (pySlice500 text).length = (text.data.take 500).length := rfl
    rw [hl, List.length_take]
    omega
  · subst h
    rfl

/-- Witness for C7's amended theorem on both paths at concrete inputs. -/
theorem send_callback_always_logs_witness :
    (send_callback (HttpOutcome.response 250 "hello") "u" [] 2).2.response_body
        = pySlice500 "hello" ∧
    (send_callback (HttpOutcome.error "boom") "u" [] 3).2.response_body
        = "Error: " ++ "boom" :=
  ⟨((send_callback_always_logs (HttpOutcome.response 250 "hello") "u" [] 2).2.2.1
      250 "hello" rfl).1,
   (send_callback_always_logs (HttpOutcome.error "boom") "u" [] 3).2.2.2
      "boom" rfl⟩

@[simp]
theorem send_callback_fst (out : HttpOutcome) (url : String) (payload : Payload)
    (attempt : Nat) :
    (send_callback out url payload attempt).1.1 = callbackSucceeded out := by
  cases out <;> rfl

@[simp]
theorem loggedAttempts_nil : loggedAttempts [] = [] := rfl

@[simp]
theorem loggedAttempts_append (xs ys : List Event) :
    loggedAttempts (xs ++ ys) = loggedAttempts xs ++ loggedAttempts ys := by
  simp [loggedAttempts, logsOf]

@[simp]
theorem loggedAttempts_sendCallbackEvents (out : HttpOutcome) (url : String)
    (payload : Payload) (attempt : Nat) :
    loggedAttempts (sendCallbackEvents out url payload attempt).2 = [attempt] := by
  cases out <;> rfl

@[simp]
theorem loggedAttempts_sleep_if (c : Prop) [Decidable c] (d : Int) :
    loggedAttempts (if c then [Event.sleep d] else []) = [] := by
  split <;> rfl

theorem retryGo_true_iff (cfg : CallbackConfig) (outcomes : Nat → HttpOutcome)
    (url : String) (payload : Payload) (l : List Nat) :
    (retryGo cfg outcomes url payload l).1 = true ↔
      ∃ i ∈ l, callbackSucceeded (outcomes i) = true := by
  induction l with
  | nil => simp [retryGo]
  | cons a rest ih =>
    cases hs : callbackSucceeded (outcomes a) with
    | true => simp [retryGo, hs]
    | false => simp [retryGo, hs, ih]

theorem retryGo_all_fail (cfg : CallbackConfig) (outcomes : Nat → HttpOutcome)
    (url : String) (payload : Payload) (l : List Nat)
    (h : ∀ i ∈ l, callbackSucceeded (outcomes i) = false) :
    (retryGo cfg outcomes url payload l).1 = false ∧
      loggedAttempts (retryGo cfg outcomes url payload l).2 = l := by
  induction l with
  | nil => simp [retryGo]
  | cons a rest ih =>
    have ha : callbackSucceeded (outcomes a) = false := h a (by simp)
    have ih' := ih (fun i hi => h i (by simp [hi]))
    simp [retryGo, ha, ih'.1, ih'.2]

theorem retryGo_first_success (cfg : CallbackConfig)
    (outcomes : Nat → HttpOutcome) (url : String) (payload : Payload) (N : Nat)
    (hfail : ∀ i, 1 ≤ i → i ≤ N → callbackSucceeded (outcomes i) = false)
    (hsucc : callbackSucceeded (outcomes (N + 1)) = true) :
    ∀ k s, 1 ≤ s → s ≤ N + 1 → N + 1 < s + k →
      (retryGo cfg outcomes url payload (List.range' s k)).1 = true ∧
      loggedAttempts (retryGo cfg outcomes url payload (List.range' s k)).2
        = List.range' s (N + 2 - s) := by
  intro k
  induction k with
  | zero => intro s _ _ h3; omega
  | succ k ih =>
    intro s h1 h2 h3
    rw [List.range'_succ]
    by_cases hsN : s = N + 1
    · subst hsN
      have hone : N + 2 - (N + 1) = 1 := by omega
      simp [retryGo, hsucc, hone, List.range'_succ]
    · have hf : callbackSucceeded (outcomes s) = false := hfail s h1 (by omega)
      obtain ⟨ih1, ih2⟩ := ih (s + 1) (by omega) (by omega) (by omega)
      have hsplit : N + 2 - s = (N + 2 - (s + 1)) + 1 := by omega
      rw [hsplit, List.range'_succ]
      simp [retryGo, hf, ih1, ih2]

/-- C2: the Retry Coordinator tries attempts 1, 2, … in order, stopping at the
first success: it returns true iff some attempt among the first
`retry_attempts` succeeds; under all-failing outcomes it logs exactly the
attempt numbers 1 … `retry_attempts` and returns false, with no attempt beyond
`retry_attempts`; and under N failures followed by a success within the limit
it logs exactly the contiguous attempt numbers 1 … N+1 and returns true. -/
theorem retry_coordinator_spec (cfg : CallbackConfig)
    (outcomes : Nat → HttpOutcome) (url : String) (payload : Payload) :
    ((send_callback_with_retry cfg outcomes url payload).1 = true ↔
      ∃ i : Nat, 1 ≤ i ∧ (i : Int) ≤ cfg.retry_attempts ∧
        callbackSucceeded (outcomes i) = true) ∧
    ((∀ i : Nat, 1 ≤ i → (i : Int) ≤ cfg.retry_attempts →
        callbackSucceeded (outcomes i) = false) →
      (send_callback_with_retry cfg outcomes url payload).1 = false ∧
      loggedAttempts (send_callback_with_retry cfg outcomes url payload).2
        = List.range' 1 cfg.retry_attempts.toNat) ∧
    (∀ N : Nat,
      (∀ i : Nat, 1 ≤ i → i ≤ N → callbackSucceeded (outcomes i) = false) →
      callbackSucceeded (outcomes (N + 1)) = true →
      ((N : Int) + 1) ≤ cfg.retry_attempts →
      (send_callback_with_retry cfg outcomes url payload).1 = true ∧
      loggedAttempts (send_callback_with_retry cfg outcomes url payload).2
        = List.range' 1 (N + 1)) := by
  refine ⟨?_, ?_, ?_⟩
  · rw [send_callback_with_retry, retryGo_true_iff]
    constructor
    · rintro ⟨i, hi, hsi⟩
      rw [List.mem_range'_1] at hi
      exact ⟨i, hi.1, by omega, hsi⟩
    · rintro ⟨i, h1, h2, hsi⟩
      exact ⟨i, List.mem_range'_1.mpr ⟨h1, by omega⟩, hsi⟩
  · intro h
    exact retryGo_all_fail cfg outcomes url payload _
      (fun i hi => by
        rw [List.mem_range'_1] at hi
        exact h i hi.1 (by omega))
  · intro N hfail hsucc hle
    have h := retryGo_first_success cfg outcomes url payload N hfail hsucc
      cfg.retry_attempts.toNat 1 (by omega) (by omega) (by omega)
    rw [send_callback_with_retry]
    simpa using h

/-- Witness for C2: with 3 configured attempts, two 500s then a 200 yield
result true and logged attempt numbers [1, 2, 3]. -/
theorem retry_coordinator_spec_witness :
    (send_callback_with_retry {} witnessOutcomes "http://cb" []).1 = true ∧
      loggedAttempts (send_callback_with_retry {} witnessOutcomes "http://cb" []).2
        = [1, 2, 3] := by
  have h := (retry_coordinator_spec {} witnessOutcomes "http://cb" []).2.2 2
    (by intro i h1 h2; interval_cases i <;> decide) (by decide) (by decide)
  simpa [List.range'] using h

/-- C10: with `retry_attempts ≤ 0` the Python range `range(1, max_attempts+1)`
is empty, so the Retry Coordinator makes no HTTP attempt, appends no log row,
never sleeps, and returns false. -/
theorem retry_nonpositive_attempts (cfg : CallbackConfig)
    (outcomes : Nat → HttpOutcome) (url : String) (payload : Payload)
    (h : cfg.retry_attempts ≤ 0) :
    (send_callback_with_retry cfg outcomes url payload).1 = false ∧
      httpAttemptsOf (send_callback_with_retry cfg outcomes url payload).2 = [] ∧
      logsOf (send_callback_with_retry cfg outcomes url payload).2 = [] ∧
      sleepsOf (send_callback_with_retry cfg outcomes url payload).2 = [] := by
  have h0 : cfg.retry_attempts.toNat = 0 := by omega
  have hres : send_callback_with_retry cfg outcomes url payload = (false, []) := by
    rw [send_callback_with_retry, h0]
    rfl
  rw [hres]
  exact ⟨rfl, rfl, rfl, rfl⟩

/-- Witness for C10 at `retry_attempts = 0` and at a negative value. -/
theorem retry_nonpositive_attempts_witness :
    (send_callback_with_retry { retry_attempts := 0 } witnessOutcomes "u" []).1
        = false ∧
      (send_callback_with_retry { retry_attempts := -3 } witnessOutcomes "u"
        []).1 = false :=
  ⟨(retry_nonpositive_attempts { retry_attempts := 0 } witnessOutcomes "u" []
      (by decide)).1,
   (retry_nonpositive_attempts { retry_attempts := -3 } witnessOutcomes "u" []
      (by decide)).1⟩

theorem filterMap_retryGo_nil {α : Type} (f : Event → Option α)
    (hhttp : ∀ u a, f (Event.httpAttempt u a) = none)
    (hlog : ∀ e, f (Event.log e) = none)
    (hsleep : ∀ s, f (Event.sleep s) = none)
    (cfg : CallbackConfig) (outcomes : Nat → HttpOutcome) (url : String)
    (payload : Payload) (l : List Nat) :
    ((retryGo cfg outcomes url payload l).2).filterMap f = [] := by
  induction l with
  | nil => rfl
  | cons a rest ih =>
    cases hs : callbackSucceeded (outcomes a) with
    | true => simp [retryGo, hs, sendCallbackEvents, hhttp, hlog]
    | false =>
      simp [retryGo, hs, sendCallbackEvents, hhttp, hlog, hsleep, ih,
        apply_ite (List.filterMap f)]

theorem filterMap_callbackEventsFor_nil {α : Type} (f : Event → Option α)
    (hhttp : ∀ u a, f (Event.httpAttempt u a) = none)
    (hlog : ∀ e, f (Event.log e) = none)
    (hsleep : ∀ s, f (Event.sleep s) = none)
    (cfg : TwilioConfig) (outcomes : Nat → HttpOutcome)
    (callback_url : Option String) (payload : Payload) :
    (callbackEventsFor cfg outcomes callback_url payload).filterMap f = [] := by
  cases callback_url with
  | none => rfl
  | some u =>
    simp only [callbackEventsFor]
    split
    · exact filterMap_retryGo_nil f hhttp hlog hsleep cfg.callbacks outcomes u
        payload _
    · rfl

@[simp]
theorem messageUpdates_nil : messageUpdates [] = [] := rfl

@[simp]
theorem messageUpdates_append (xs ys : List Event) :
    messageUpdates (xs ++ ys) = messageUpdates xs ++ messageUpdates ys := by
  simp [messageUpdates]

@[simp]
theorem messageUpdates_cons_update (sid status : String) (l : List Event) :
    messageUpdates (Event.updateMessage sid status :: l)
      = (sid, status) :: messageUpdates l := rfl

@[simp]
theorem messageUpdates_cons_deliveryEvent (m c : Option String)
    (k st : String) (l : List Event) :
    messageUpdates (Event.deliveryEvent m c k st :: l) = messageUpdates l := rfl

@[simp]
theorem messageUpdates_cons_sleep (d : Int) (l : List Event) :
    messageUpdates (Event.sleep d :: l) = messageUpdates l := rfl

@[simp]
theorem messageUpdates_sleep_if (c : Prop) [Decidable c] (d : Int) :
    messageUpdates (if c then [Event.sleep d] else []) = [] := by
  split <;> rfl

@[simp]
theorem messageUpdates_callbackEventsFor (cfg : TwilioConfig)
    (outcomes : Nat → HttpOutcome) (callback_url : Option String)
    (payload : Payload) :
    messageUpdates (callbackEventsFor cfg outcomes callback_url payload) = [] :=
  filterMap_callbackEventsFor_nil _ (fun _ _ => rfl) (fun _ => rfl)
    (fun _ => rfl) cfg outcomes callback_url payload

@[simp]
theorem callUpdates_nil : callUpdates [] = [] := rfl

@[simp]
theorem callUpdates_append (xs ys : List Event) :
    callUpdates (xs ++ ys) = callUpdates xs ++ callUpdates ys := by
  simp [callUpdates]

@[simp]
theorem callUpdates_cons_update (sid status : String) (l : List Event) :
    callUpdates (Event.updateCall sid status :: l)
      = (sid, status) :: callUpdates l := rfl

@[simp]
theorem callUpdates_cons_deliveryEvent (m c : Option String) (k st : String)
    (l : List Event) :
    callUpdates (Event.deliveryEvent m c k st :: l) = callUpdates l := rfl

@[simp]
theorem callUpdates_cons_sleep (d : Int) (l : List Event) :
    callUpdates (Event.sleep d :: l) = callUpdates l := rfl

@[simp]
theorem callUpdates_sleep_if (c : Prop) [Decidable c] (d : Int) :
    callUpdates (if c then [Event.sleep d] else []) = [] := by
  split <;> rfl

@[simp]
theorem callUpdates_callbackEventsFor (cfg : TwilioConfig)
    (outcomes : Nat → HttpOutcome) (callback_url : Option String)
    (payload : Payload) :
    callUpdates (callbackEventsFor cfg outcomes callback_url payload) = [] :=
  filterMap_callbackEventsFor_nil _ (fun _ _ => rfl) (fun _ => rfl)
    (fun _ => rfl) cfg outcomes callback_url payload

@[simp]
theorem deliveryEventsOf_nil : deliveryEventsOf [] = [] := rfl

@[simp]
theorem deliveryEventsOf_append (xs ys : List Event) :
    deliveryEventsOf (xs ++ ys) = deliveryEventsOf xs ++ deliveryEventsOf ys := by
  simp [deliveryEventsOf]

@[simp]
theorem deliveryEventsOf_cons_updateMessage (sid status : String)
    (l : List Event) :
    deliveryEventsOf (Event.updateMessage sid status :: l)
      = deliveryEventsOf l := rfl

@[simp]
theorem deliveryEventsOf_cons_updateCall (sid status : String)
    (l : List Event) :
    deliveryEventsOf (Event.updateCall sid status :: l)
      = deliveryEventsOf l := rfl

@[simp]
theorem deliveryEventsOf_cons_deliveryEvent (m c : Option String)
    (k st : String) (l : List Event) :
    deliveryEventsOf (Event.deliveryEvent m c k st :: l)
      = (m, c, k, st) :: deliveryEventsOf l := rfl

@[simp]
theorem deliveryEventsOf_cons_sleep (d : Int) (l : List Event) :
    deliveryEventsOf (Event.sleep d :: l) = deliveryEventsOf l := rfl

@[simp]
theorem deliveryEventsOf_sleep_if (c : Prop) [Decidable c] (d : Int) :
    deliveryEventsOf (if c then [Event.sleep d] else []) = [] := by
  split <;> rfl

@[simp]
theorem deliveryEventsOf_callbackEventsFor (cfg : TwilioConfig)
    (outcomes : Nat → HttpOutcome) (callback_url : Option String)
    (payload : Payload) :
    deliveryEventsOf (callbackEventsFor cfg outcomes callback_url payload)
      = [] :=
  filterMap_callbackEventsFor_nil _ (fun _ _ => rfl) (fun _ => rfl)
    (fun _ => rfl) cfg outcomes callback_url payload

@[simp]
theorem logsOf_nil : logsOf [] = [] := rfl

@[simp]
theorem logsOf_append (xs ys : List Event) :
    logsOf (xs ++ ys) = logsOf xs ++ logsOf ys := by
  simp [logsOf]

@[simp]
theorem logsOf_cons_updateMessage (sid status : String) (l : List Event) :
    logsOf (Event.updateMessage sid status :: l) = logsOf l := rfl

@[simp]
theorem logsOf_cons_updateCall (sid status : String) (l : List Event) :
    logsOf (Event.updateCall sid status :: l) = logsOf l := rfl

@[simp]
theorem logsOf_cons_deliveryEvent (m c : Option String) (k st : String)
    (l : List Event) :
    logsOf (Event.deliveryEvent m c k st :: l) = logsOf l := rfl

@[simp]
theorem logsOf_cons_sleep (d : Int) (l : List Event) :
    logsOf (Event.sleep d :: l) = logsOf l := rfl

@[simp]
theorem logsOf_sleep_if (c : Prop) [Decidable c] (d : Int) :
    logsOf (if c then [Event.sleep d] else []) = [] := by
  split <;> rfl

@[simp]
theorem logsOf_callbackEventsFor_none (cfg : TwilioConfig)
    (outcomes : Nat → HttpOutcome) (payload : Payload) :
    logsOf (callbackEventsFor cfg outcomes none payload) = [] := rfl

@[simp]
theorem httpAttemptsOf_nil : httpAttemptsOf [] = [] := rfl

@[simp]
theorem httpAttemptsOf_append (xs ys : List Event) :
    httpAttemptsOf (xs ++ ys) = httpAttemptsOf xs ++ httpAttemptsOf ys := by
  simp [httpAttemptsOf]

@[simp]
theorem httpAttemptsOf_cons_updateMessage (sid status : String)
    (l : List Event) :
    httpAttemptsOf (Event.updateMessage sid status :: l) = httpAttemptsOf l := rfl

@[simp]
theorem httpAttemptsOf_cons_updateCall (sid status : String) (l : List Event) :
    httpAttemptsOf (Event.updateCall sid status :: l) = httpAttemptsOf l := rfl

@[simp]
theorem httpAttemptsOf_cons_deliveryEvent (m c : Option String) (k st : String)
    (l : List Event) :
    httpAttemptsOf (Event.deliveryEvent m c k st :: l) = httpAttemptsOf l := rfl

@[simp]
theorem httpAttemptsOf_cons_sleep (d : Int) (l : List Event) :
    httpAttemptsOf (Event.sleep d :: l) = httpAttemptsOf l := rfl

@[simp]
theorem httpAttemptsOf_sleep_if (c : Prop) [Decidable c] (d : Int) :
    httpAttemptsOf (if c then [Event.sleep d] else []) = [] := by
  split <;> rfl

@[simp]
theorem httpAttemptsOf_callbackEventsFor_none (cfg : TwilioConfig)
    (outcomes : Nat → HttpOutcome) (payload : Payload) :
    httpAttemptsOf (callbackEventsFor cfg outcomes none payload) = [] := rfl

@[simp]
theorem messageUpdates_sleep_if_not (c : Prop) [Decidable c] (d : Int) :
    messageUpdates (if c then [] else [Event.sleep d]) = [] := by
  split <;> rfl

@[simp]
theorem callUpdates_sleep_if_not (c : Prop) [Decidable c] (d : Int) :
    callUpdates (if c then [] else [Event.sleep d]) = [] := by
  split <;> rfl

@[simp]
theorem deliveryEventsOf_sleep_if_not (c : Prop) [Decidable c] (d : Int) :
    deliveryEventsOf (if c then [] else [Event.sleep d]) = [] := by
  split <;> rfl

@[simp]
theorem logsOf_sleep_if_not (c : Prop) [Decidable c] (d : Int) :
    logsOf (if c then [] else [Event.sleep d]) = [] := by
  split <;> rfl

@[simp]
theorem httpAttemptsOf_sleep_if_not (c : Prop) [Decidable c] (d : Int) :
    httpAttemptsOf (if c then [] else [Event.sleep d]) = [] := by
  split <;> rfl

theorem messageStatusLoop_updates (cfg : TwilioConfig) (env : Env)
    (sid fn tn : String) (callback_url : Option String) (lastStatus : String)
    (statuses : List String) (i : Nat) :
    messageUpdates (messageStatusLoop cfg env sid fn tn callback_url lastStatus
        i statuses)
      = statuses.map (fun st => (sid, st)) := by
  induction statuses generalizing i with
  | nil => rfl
  | cons st rest ih => simp [messageStatusLoop, ih]

theorem callStatusLoop_updates (cfg : TwilioConfig) (env : Env)
    (sid fn tn : String) (callback_url : Option String) (lastStatus : String)
    (statuses : List String) (i : Nat) :
    callUpdates (callStatusLoop cfg env sid fn tn callback_url lastStatus
        i statuses)
      = statuses.map (fun st => (sid, st)) := by
  induction statuses generalizing i with
  | nil => rfl
  | cons st rest ih => simp [callStatusLoop, ih]

theorem messageStatusLoop_deliveryEvents (cfg : TwilioConfig) (env : Env)
    (sid fn tn : String) (callback_url : Option String) (lastStatus : String)
    (statuses : List String) (i : Nat) :
    deliveryEventsOf (messageStatusLoop cfg env sid fn tn callback_url
        lastStatus i statuses)
      = statuses.map (fun st => (some sid, none, "status_update", st)) := by
  induction statuses generalizing i with
  | nil => rfl
  | cons st rest ih => simp [messageStatusLoop, ih]

theorem callStatusLoop_deliveryEvents (cfg : TwilioConfig) (env : Env)
    (sid fn tn : String) (callback_url : Option String) (lastStatus : String)
    (statuses : List String) (i : Nat) :
    deliveryEventsOf (callStatusLoop cfg env sid fn tn callback_url lastStatus
        i statuses)
      = statuses.map (fun st => (none, some sid, "status_update", st)) := by
  induction statuses generalizing i with
  | nil => rfl
  | cons st rest ih => simp [callStatusLoop, ih]

theorem messageStatusLoop_logs_none (cfg : TwilioConfig) (env : Env)
    (sid fn tn : String) (lastStatus : String) (statuses : List String)
    (i : Nat) :
    logsOf (messageStatusLoop cfg env sid fn tn none lastStatus i statuses)
        = [] ∧
      httpAttemptsOf (messageStatusLoop cfg env sid fn tn none lastStatus i
        statuses) = [] := by
  induction statuses generalizing i with
  | nil => exact ⟨rfl, rfl⟩
  | cons st rest ih =>
    obtain ⟨ih1, ih2⟩ := ih (i + 1)
    constructor <;> simp [messageStatusLoop, ih1, ih2]

theorem callStatusLoop_logs_none (cfg : TwilioConfig) (env : Env)
    (sid fn tn : String) (lastStatus : String) (statuses : List String)
    (i : Nat) :
    logsOf (callStatusLoop cfg env sid fn tn none lastStatus i statuses) = [] ∧
      httpAttemptsOf (callStatusLoop cfg env sid fn tn none lastStatus i
        statuses) = [] := by
  induction statuses generalizing i with
  | nil => exact ⟨rfl, rfl⟩
  | cons st rest ih =>
    obtain ⟨ih1, ih2⟩ := ih (i + 1)
    constructor <;> simp [callStatusLoop, ih1, ih2]

theorem classify_unknown_iff (cfg : TwilioConfig) (to_number : String) :
    classify cfg to_number = Outcome.Unknown ↔
      (to_number ∉ cfg.registered_numbers ∧ to_number ∉ cfg.failure_numbers) := by
  unfold classify
  split_ifs with h1 h2 <;> simp_all

theorem classify_succeed_iff (cfg : TwilioConfig) (to_number : String) :
    classify cfg to_number = Outcome.Succeed ↔
      (¬(to_number ∉ cfg.registered_numbers ∧ to_number ∉ cfg.failure_numbers) ∧
        should_succeed cfg to_number = true) := by
  unfold classify
  split_ifs with h1 h2 <;> simp_all

theorem classify_fail_iff (cfg : TwilioConfig) (to_number : String) :
    classify cfg to_number = Outcome.Fail ↔
      (¬(to_number ∉ cfg.registered_numbers ∧ to_number ∉ cfg.failure_numbers) ∧
        should_succeed cfg to_number = false) := by
  unfold classify
  split_ifs with h1 h2 <;> simp_all

/-- C3: the persisted status sequence of a progression run is exactly
determined by outcome and resource kind: a Succeed message persists exactly
[sent, delivered], a Fail message exactly [failed], a Succeed call exactly
[ringing, in-progress, completed], a Fail call exactly [failed], in that
order. -/
theorem progression_status_sequences (cfg : TwilioConfig) (env : Env)
    (sid fn tn : String) (callback_url : Option String) :
    (classify cfg tn = Outcome.Succeed →
      messageUpdates (sendMessageTask cfg env sid fn tn callback_url)
        = [(sid, "sent"), (sid, "delivered")] ∧
      callUpdates (sendCallTask cfg env sid fn tn callback_url)
        = [(sid, "ringing"), (sid, "in-progress"), (sid, "completed")]) ∧
    (classify cfg tn = Outcome.Fail →
      messageUpdates (sendMessageTask cfg env sid fn tn callback_url)
        = [(sid, "failed")] ∧
      callUpdates (sendCallTask cfg env sid fn tn callback_url)
        = [(sid, "failed")]) := by
  constructor
  · intro h
    rw [classify_succeed_iff] at h
    obtain ⟨hmem, hss⟩ := h
    constructor <;>
      simp [sendMessageTask, sendCallTask, process_message_callbacks,
        process_call_callbacks, hmem, hss, messageStatuses, callStatuses,
        messageStatusLoop_updates, callStatusLoop_updates]
  · intro h
    rw [classify_fail_iff] at h
    obtain ⟨hmem, hss⟩ := h
    constructor <;>
      simp [sendMessageTask, sendCallTask, process_message_callbacks,
        process_call_callbacks, hmem, hss, messageStatuses, callStatuses,
        messageStatusLoop_updates, callStatusLoop_updates]

/-- Witness for C3 on the spec's scenario configuration: a registered
destination runs the success sequences, a failure-listed destination the
failure sequences. -/
theorem progression_status_sequences_witness :
    (messageUpdates (sendMessageTask scenarioCfg envAllOk "SM1" "+15550000001"
        "+15551234567" (some "http://cb")) = [("SM1", "sent"), ("SM1", "delivered")] ∧
      callUpdates (sendCallTask scenarioCfg envAllOk "SM1" "+15550000001"
        "+15551234567" (some "http://cb"))
        = [("SM1", "ringing"), ("SM1", "in-progress"), ("SM1", "completed")]) ∧
    (messageUpdates (sendMessageTask scenarioCfg envAllOk "SM2" "+15550000001"
        "+15559999999" (some "http://cb")) = [("SM2", "failed")] ∧
      callUpdates (sendCallTask scenarioCfg envAllOk "SM2" "+15550000001"
        "+15559999999" (some "http://cb")) = [("SM2", "failed")]) :=
  ⟨(progression_status_sequences scenarioCfg envAllOk "SM1" "+15550000001"
      "+15551234567" (some "http://cb")).1 (by decide),
   (progression_status_sequences scenarioCfg envAllOk "SM2" "+15550000001"
      "+15559999999" (some "http://cb")).2 (by decide)⟩

/-- C4: an Unknown-classified destination makes the progression run a no-op
with an empty trace — no status update, no delivery event, no callback log, no
HTTP attempt, and no sleep. -/
theorem progression_unknown_noop (cfg : TwilioConfig) (env : Env)
    (sid fn tn : String) (callback_url : Option String) (will_succeed : Bool)
    (h : classify cfg tn = Outcome.Unknown) :
    process_message_callbacks cfg env sid fn tn callback_url will_succeed = [] ∧
      process_call_callbacks cfg env sid fn tn callback_url will_succeed = [] := by
  rw [classify_unknown_iff] at h
  constructor <;> simp [process_message_callbacks, process_call_callbacks, h]

/-- Witness for C4 at an unlisted destination of the scenario
configuration. -/
theorem progression_unknown_noop_witness :
    process_message_callbacks scenarioCfg envAllOk "SM1" "+15550000001"
        "+19998887777" (some "http://cb") true = [] ∧
      process_call_callbacks scenarioCfg envAllOk "SM1" "+15550000001"
        "+19998887777" (some "http://cb") true = [] :=
  progression_unknown_noop scenarioCfg envAllOk "SM1" "+15550000001"
    "+19998887777" (some "http://cb") true (by decide)

/-- C8: the Retry Coordinator's boolean result is discarded by the progression
run — for every HTTP environment the persisted status updates and delivery
events equal those of the all-deliveries-succeed environment. -/
theorem progression_ignores_delivery_failures (cfg : TwilioConfig) (env : Env)
    (sid fn tn : String) (callback_url : Option String) (will_succeed : Bool) :
    messageUpdates (process_message_callbacks cfg env sid fn tn callback_url
        will_succeed)
      = messageUpdates (process_message_callbacks cfg envAllOk sid fn tn
        callback_url will_succeed) ∧
    deliveryEventsOf (process_message_callbacks cfg env sid fn tn callback_url
        will_succeed)
      = deliveryEventsOf (process_message_callbacks cfg envAllOk sid fn tn
        callback_url will_succeed) ∧
    callUpdates (process_call_callbacks cfg env sid fn tn callback_url
        will_succeed)
      = callUpdates (process_call_callbacks cfg envAllOk sid fn tn callback_url
        will_succeed) ∧
    deliveryEventsOf (process_call_callbacks cfg env sid fn tn callback_url
        will_succeed)
      = deliveryEventsOf (process_call_callbacks cfg envAllOk sid fn tn
        callback_url will_succeed) := by
  by_cases hmem : tn ∉ cfg.registered_numbers ∧ tn ∉ cfg.failure_numbers <;>
    refine ⟨?_, ?_, ?_, ?_⟩ <;>
      simp [process_message_callbacks, process_call_callbacks, hmem,
        messageStatusLoop_updates, callStatusLoop_updates,
        messageStatusLoop_deliveryEvents, callStatusLoop_deliveryEvents]

/-- C9: with no webhook URL supplied, or with callbacks disabled in the
configuration, `main.py` hands the progression run no URL; the run still
persists every status of the sequence and records a delivery event per
transition, but makes no HTTP attempt and logs no delivery attempt. -/
theorem progression_without_callbacks (cfg : TwilioConfig) (env : Env)
    (sid fn tn : String) (callback_url : Option String)
    (hu : callback_url = none ∨ cfg.callbacks.enabled = false)
    (hc : classify cfg tn ≠ Outcome.Unknown) :
    messageUpdates (sendMessageTask cfg env sid fn tn callback_url)
      = (messageStatuses (should_succeed cfg tn)).map (fun st => (sid, st)) ∧
    deliveryEventsOf (sendMessageTask cfg env sid fn tn callback_url)
      = (messageStatuses (should_succeed cfg tn)).map
          (fun st => (some sid, none, "status_update", st)) ∧
    logsOf (sendMessageTask cfg env sid fn tn callback_url) = [] ∧
    httpAttemptsOf (sendMessageTask cfg env sid fn tn callback_url) = [] ∧
    callUpdates (sendCallTask cfg env sid fn tn callback_url)
      = (callStatuses (should_succeed cfg tn)).map (fun st => (sid, st)) ∧
    deliveryEventsOf (sendCallTask cfg env sid fn tn callback_url)
      = (callStatuses (should_succeed cfg tn)).map
          (fun st => (none, some sid, "status_update", st)) ∧
    logsOf (sendCallTask cfg env sid fn tn callback_url) = [] ∧
    httpAttemptsOf (sendCallTask cfg env sid fn tn callback_url) = [] := by
  have hnone : scheduledCallbackUrl cfg callback_url = none := by
    rcases hu with hu | hu
    · rw [hu]; rfl
    · cases callback_url with
      | none => rfl
      | some u => simp [scheduledCallbackUrl, hu]
  have hc' : ¬(tn ∉ cfg.registered_numbers ∧ tn ∉ cfg.failure_numbers) :=
    fun hmem => hc ((classify_unknown_iff cfg tn).mpr hmem)
  have hm := messageStatusLoop_logs_none cfg env sid fn tn
    ((messageStatuses (should_succeed cfg tn)).getLastD "")
    (messageStatuses (should_succeed cfg tn)) 0
  have hcall := callStatusLoop_logs_none cfg env sid fn tn
    ((callStatuses (should_succeed cfg tn)).getLastD "")
    (callStatuses (should_succeed cfg tn)) 0
  simp only [List.getLastD_eq_getLast?] at hm hcall
  refine ⟨?_, ?_, ?_, ?_, ?_, ?_, ?_, ?_⟩ <;>
    simp [sendMessageTask, sendCallTask, process_message_callbacks,
      process_call_callbacks, hnone, hc', messageStatusLoop_updates,
      callStatusLoop_updates, messageStatusLoop_deliveryEvents,
      callStatusLoop_deliveryEvents, hm.1, hm.2, hcall.1, hcall.2]

/-- Witness for C9: a registered destination with no webhook URL still
persists [sent, delivered] and logs no delivery attempt. -/
theorem progression_without_callbacks_witness :
    messageUpdates (sendMessageTask scenarioCfg envAllOk "SM1" "+15550000001"
        "+15551234567" none) = [("SM1", "sent"), ("SM1", "delivered")] ∧
      logsOf (sendMessageTask scenarioCfg envAllOk "SM1" "+15550000001"
        "+15551234567" none) = [] := by
  have h := progression_without_callbacks scenarioCfg envAllOk "SM1"
    "+15550000001" "+15551234567" none (Or.inl rfl) (by decide)
  exact ⟨by simpa [messageStatuses] using h.1, h.2.2.2.2.2.2.1⟩

/-- C5: membership in `failure_numbers` forces classification Fail, whether or
not the destination is also in `registered_numbers`. -/
theorem classify_failure_precedence (cfg : TwilioConfig) (to_number : String)
    (hf : to_number ∈ cfg.failure_numbers) :
    classify cfg to_number = Outcome.Fail := by
  simp [classify, should_succeed, hf]

/-- Witness for C5: a destination present in both lists classifies Fail. -/
theorem classify_failure_precedence_witness :
    classify { scenarioCfg with failure_numbers := ["+15551234567"] }
      "+15551234567" = Outcome.Fail :=
  classify_failure_precedence
    { scenarioCfg with failure_numbers := ["+15551234567"] }
    "+15551234567" (by decide)

end SmsMock
